import Mathlib

/-!
# Shallow embedding of the jobfinder backend (src/index.js)

The source is a single Express application with two substantive request
handlers, `POST /signup` and `POST /login`, backed by a PostgreSQL table
`users (id PK, username UNIQUE, email UNIQUE, password, created_at)` and
bcrypt for password hashing.

Modelling choices:
* JSON request fields are `Option String` (`none` = property absent from the
  body, matching JS `undefined`).
* JS `String.prototype.trim` / `toLowerCase` are embedded as `jsTrim` /
  `jsToLower` over the character list (ASCII-faithful, which covers every
  concrete value appearing in the claims).
* The store is a list of rows.  Every query the handlers issue is recorded in
  a trace of `StoreOp`s, so "the handler did not touch the store" is the
  trace being empty.
* bcrypt is an external primitive; the handlers are parameterized by
  `bhash : String → Nat → String` (plaintext, cost rounds) and
  `bcompare : String → String → Bool`.  A concrete reference instance
  (`refHash` / `refCompare`) is provided for evaluation.
* The `INSERT` enforces the table's `UNIQUE` constraints on `email` and
  `username`; a violated constraint makes the query throw, which the JS
  `catch` block turns into an HTTP 500.  To express the documented race
  (pre-check and insert seeing different store contents), `signupWithRace`
  takes the store state at check time and at insert time separately;
  the sequential handler `signup` passes the same state twice.
* The development-mode-only `error` detail field of 500 bodies (dropped by
  `JSON.stringify` in production where it is `undefined`) is omitted.
-/

/-- JS `String.prototype.trim` on ASCII data: drop leading and trailing
whitespace characters. -/
def jsTrim (s : String) : String :=
  ⟨((s.data.dropWhile Char.isWhitespace).reverse.dropWhile Char.isWhitespace).reverse⟩

/-- JS `String.prototype.toLowerCase` on ASCII data. -/
def jsToLower (s : String) : String :=
  ⟨s.data.map Char.toLower⟩

/-- JS truthiness of an optional string value: `undefined` and `""` are
falsy, every other string is truthy.  Embeds `!x` on `x : string|undefined`. -/
def jsFalsy : Option String → Bool
  | none => true
  | some s => s == ""

/-- Embeds `!x?.trim()`: `undefined` propagates, otherwise the trimmed
string's truthiness is tested. -/
def jsTrimFalsy : Option String → Bool
  | none => true
  | some s => jsTrim s == ""

/-- Embeds `!!x` (the `received` diagnostic object of the 400 response). -/
def jsTruthy (x : Option String) : Bool := !(jsFalsy x)

/-- A row of the `users` table.  `password` holds the stored bcrypt hash;
`created_at` (`NOW()` at insert) and `id` are store-assigned. -/
structure UserRow where
  id : Nat
  username : String
  email : String
  password : String
  created_at : Nat
deriving Repr, DecidableEq

/-- The `users` table. -/
abbrev DB := List UserRow

mutual
/-- JSON values, as built by the handlers for response bodies. -/
inductive Json where
  | str : String → Json
  | num : Nat → Json
  | bool : Bool → Json
  | obj : JsonFields → Json
deriving Repr
inductive JsonFields where
  | nil : JsonFields
  | cons : String → Json → JsonFields → JsonFields
deriving Repr
end

mutual
/-- String values occurring anywhere in a JSON tree. -/
def Json.strLeaves : Json → List String
  | .str s => [s]
  | .num _ => []
  | .bool _ => []
  | .obj fs => fs.strLeaves
def JsonFields.strLeaves : JsonFields → List String
  | .nil => []
  | .cons _ v rest => v.strLeaves ++ rest.strLeaves
end

mutual
/-- Object keys occurring anywhere in a JSON tree. -/
def Json.keys : Json → List String
  | .str _ => []
  | .num _ => []
  | .bool _ => []
  | .obj fs => fs.keys
def JsonFields.keys : JsonFields → List String
  | .nil => []
  | .cons k v rest => k :: (v.keys ++ rest.keys)
end

/-- An HTTP response: status code and JSON body. -/
structure Response where
  status : Nat
  body : Json
deriving Repr

/-- Store operations the handlers can issue, in order. -/
inductive StoreOp where
  | lookupEU : String → String → StoreOp   -- SELECT id FROM users WHERE email = $1 OR username = $2
  | insert : String → String → String → StoreOp  -- INSERT INTO users (username, email, password, ...)
  | lookupE : String → StoreOp             -- SELECT ... FROM users WHERE email = $1
deriving Repr, DecidableEq

/-- The email argument a store operation carries. -/
def StoreOp.emailArg : StoreOp → String
  | .lookupEU e _ => e
  | .insert _ e _ => e
  | .lookupE e => e

/-- The username argument a store operation carries, if any. -/
def StoreOp.usernameArg : StoreOp → Option String
  | .lookupEU _ u => some u
  | .insert u _ _ => some u
  | .lookupE _ => none

/-- `SELECT id FROM users WHERE email = $1 OR username = $2`. -/
def lookupByEmailOrUsername (db : DB) (e u : String) : List UserRow :=
  db.filter (fun r => r.email == e || r.username == u)

/-- `SELECT id, username, email, password, created_at FROM users WHERE email = $1`,
of which the handler consumes `rows[0]`. -/
def lookupByEmail (db : DB) (e : String) : Option UserRow :=
  db.find? (fun r => r.email == e)

/-- The inserted row: `id` store-assigned, `created_at` = `NOW()`. -/
def insertedRow (db : DB) (u e h : String) (now : Nat) : UserRow :=
  { id := db.length + 1, username := u, email := e, password := h, created_at := now }

/-- `const saltRounds = 12;` (src/index.js:124). -/
def saltRounds : Nat := 12

/-- Body of the signup 400 response (src/index.js:104-107). -/
def signupValidationBody (name email password : Option String) : Json :=
  .obj (.cons "message" (.str "All fields are required")
    (.cons "received" (.obj (.cons "name" (.bool (jsTruthy name))
      (.cons "email" (.bool (jsTruthy email))
        (.cons "password" (.bool (jsTruthy password)) .nil)))) .nil))

/-- Body of the signup 409 response (src/index.js:118-120). -/
def duplicateBody : Json :=
  .obj (.cons "message" (.str "Email or username already exists") .nil)

/-- Body of the signup 500 response (src/index.js:144-147), production mode. -/
def signupFailureBody : Json :=
  .obj (.cons "message" (.str "Registration failed") .nil)

/-- Body of the signup 201 response (src/index.js:137-140). -/
def signupSuccessBody (userId : Nat) : Json :=
  .obj (.cons "message" (.str "User registered successfully")
    (.cons "userId" (.num userId) .nil))

/-- Body of the login 400 response (src/index.js:158-160). -/
def loginValidationBody : Json :=
  .obj (.cons "message" (.str "Email and password are required") .nil)

/-- Body of both login 401 responses (src/index.js:172-174 and 183-185). -/
def invalidCredentialBody : Json :=
  .obj (.cons "message" (.str "Invalid email or password") .nil)

/-- Body of the login 200 response (src/index.js:191-199). -/
def loginSuccessBody (u : UserRow) : Json :=
  .obj (.cons "message" (.str "Login successful")
    (.cons "user" (.obj (.cons "id" (.num u.id)
      (.cons "username" (.str u.username)
        (.cons "email" (.str u.email)
          (.cons "created_at" (.num u.created_at) .nil))))) .nil))

/-- The `POST /signup` handler (src/index.js:98-149), with the store state at
existence-check time (`dbAtCheck`) and at insert time (`dbAtInsert`) passed
separately so that a concurrent insert between the two can be expressed.  The
`INSERT` enforces the `UNIQUE` constraints on `email` and `username`: when
either value is already taken at insert time the query throws, and the
handler's generic `catch` turns any thrown error into a 500.  Returns the
response, the store state after the request, and the trace of store
operations issued. -/
def signupWithRace (name email password : Option String)
    (dbAtCheck dbAtInsert : DB) (now : Nat) (bhash : String → Nat → String) :
    Response × DB × List StoreOp :=
  if jsTrimFalsy name || jsTrimFalsy email || jsFalsy password then
    (⟨400, signupValidationBody name email password⟩, dbAtInsert, [])
  else
    let username := name.getD ""
    let cleanEmail := jsToLower (jsTrim (email.getD ""))
    if (lookupByEmailOrUsername dbAtCheck cleanEmail username).length > 0 then
      (⟨409, duplicateBody⟩, dbAtInsert, [.lookupEU cleanEmail username])
    else
      let hashedPassword := bhash (password.getD "") saltRounds
      if (lookupByEmailOrUsername dbAtInsert cleanEmail username).length > 0 then
        -- the INSERT throws a unique-constraint violation; catch → 500
        (⟨500, signupFailureBody⟩, dbAtInsert,
          [.lookupEU cleanEmail username, .insert username cleanEmail hashedPassword])
      else
        let newUser := insertedRow dbAtInsert username cleanEmail hashedPassword now
        (⟨201, signupSuccessBody newUser.id⟩, dbAtInsert ++ [newUser],
          [.lookupEU cleanEmail username, .insert username cleanEmail hashedPassword])

/-- The `POST /signup` handler without concurrent interference: the store
does not change between the existence check and the insert. -/
def signup (name email password : Option String) (db : DB) (now : Nat)
    (bhash : String → Nat → String) : Response × DB × List StoreOp :=
  signupWithRace name email password db db now bhash

/-- The `POST /login` handler (src/index.js:152-208).  Reads only; returns
the response and the trace of store operations issued. -/
def login (email password : Option String) (db : DB)
    (bcompare : String → String → Bool) : Response × List StoreOp :=
  if jsTrimFalsy email || jsFalsy password then
    (⟨400, loginValidationBody⟩, [])
  else
    let cleanEmail := jsToLower (jsTrim (email.getD ""))
    match lookupByEmail db cleanEmail with
    | none => (⟨401, invalidCredentialBody⟩, [.lookupE cleanEmail])
    | some user =>
      if bcompare (password.getD "") user.password then
        (⟨200, loginSuccessBody user⟩, [.lookupE cleanEmail])
      else
        (⟨401, invalidCredentialBody⟩, [.lookupE cleanEmail])

/-- A concrete stand-in for the bcrypt hashing primitive, used to evaluate
the handlers on closed inputs. -/
def refHash (plaintext : String) (cost : Nat) : String :=
  toString cost ++ "$" ++ plaintext

/-- The matching stand-in for `bcrypt.compare`. -/
def refCompare (plaintext stored : String) : Bool :=
  stored == refHash plaintext saltRounds

/-! ## Theorems about the claims -/

/-- C1 (counterexample): the claim says a uniqueness-constraint violation at
insert time (a concurrent duplicate that passed the pre-check) is recognized
and answered with HTTP 409.  On a concrete race — the pre-check sees an empty
store, the insert runs against a store already holding the email — the
handler answers 500, not 409: the generic catch block does not distinguish
constraint violations. -/
theorem C1_counterexample :
    (signupWithRace (some "bob") (some "b@x.com") (some "pw") []
        [⟨1, "carol", "b@x.com", "h0", 0⟩] 7 refHash).1.status = 500 ∧
    ¬ (signupWithRace (some "bob") (some "b@x.com") (some "pw") []
        [⟨1, "carol", "b@x.com", "h0", 0⟩] 7 refHash).1.status = 409 := by
  decide

/-- C1 (amended): when the signup insert fails with a uniqueness-constraint
violation from a concurrent duplicate that passed the pre-check, the generic
catch block maps it — like every other store error — to HTTP 500
(UnexpectedFailure) and no row is inserted; HTTP 409 is produced only by the
pre-check. -/
theorem C1_amended_constraint_violation_maps_to_500
    (name email password : Option String) (dbAtCheck dbAtInsert : DB)
    (now : Nat) (bhash : String → Nat → String)
    (hn : jsTrimFalsy name = false) (he : jsTrimFalsy email = false)
    (hp : jsFalsy password = false)
    (hpre : lookupByEmailOrUsername dbAtCheck
      (jsToLower (jsTrim (email.getD ""))) (name.getD "") = [])
    (hdup : 0 < (lookupByEmailOrUsername dbAtInsert
      (jsToLower (jsTrim (email.getD ""))) (name.getD "")).length) :
    (signupWithRace name email password dbAtCheck dbAtInsert now bhash).1 =
      ⟨500, signupFailureBody⟩ ∧
    (signupWithRace name email password dbAtCheck dbAtInsert now bhash).2.1 =
      dbAtInsert := by
  simp [signupWithRace, hn, he, hp, hpre, hdup]

/-- C1 (witness for the amended theorem). -/
theorem C1_amended_witness :
    (signupWithRace (some "bob") (some "b@x.com") (some "pw") []
        [⟨1, "carol", "b@x.com", "h0", 0⟩] 7 refHash).1 =
      ⟨500, signupFailureBody⟩ ∧
    (signupWithRace (some "bob") (some "b@x.com") (some "pw") []
        [⟨1, "carol", "b@x.com", "h0", 0⟩] 7 refHash).2.1 =
      [⟨1, "carol", "b@x.com", "h0", 0⟩] :=
  C1_amended_constraint_violation_maps_to_500
    (some "bob") (some "b@x.com") (some "pw") []
    [⟨1, "carol", "b@x.com", "h0", 0⟩] 7 refHash
    (by decide) (by decide) (by decide) (by decide) (by decide)

/-- C2: a signup request with a missing or empty name, email, or password is
answered 400 with the store untouched (no query issued, state unchanged); a
login request with a missing or empty email or password is answered 400 with
no store query. -/
theorem C2_validation_400_no_store_access
    (name email password : Option String) (db : DB) (now : Nat)
    (bhash : String → Nat → String) (bcompare : String → String → Bool) :
    ((name = none ∨ name = some "" ∨ email = none ∨ email = some "" ∨
        password = none ∨ password = some "") →
      (signup name email password db now bhash).1.status = 400 ∧
      (signup name email password db now bhash).2.1 = db ∧
      (signup name email password db now bhash).2.2 = []) ∧
    ((email = none ∨ email = some "" ∨ password = none ∨ password = some "") →
      (login email password db bcompare).1.status = 400 ∧
      (login email password db bcompare).2 = []) := by
  have htrim0 : jsTrimFalsy (some "") = true := by decide
  have hfalsy0 : jsFalsy (some "") = true := by decide
  have htrimN : jsTrimFalsy none = true := rfl
  have hfalsyN : jsFalsy none = true := rfl
  constructor
  · rintro (rfl | rfl | rfl | rfl | rfl | rfl) <;>
      simp [signup, signupWithRace, htrim0, hfalsy0, htrimN, hfalsyN]
  · rintro (rfl | rfl | rfl | rfl) <;>
      simp [login, htrim0, hfalsy0, htrimN, hfalsyN]

/-- C2 (witness): a signup with an absent password and a login with an empty
email are both answered 400 without any store operation. -/
theorem C2_witness :
    ((signup (some "alice") (some "a@x.com") none [] 0 refHash).1.status = 400 ∧
      (signup (some "alice") (some "a@x.com") none [] 0 refHash).2.1 = [] ∧
      (signup (some "alice") (some "a@x.com") none [] 0 refHash).2.2 = []) ∧
    ((login (some "") (some "pw") [] refCompare).1.status = 400 ∧
      (login (some "") (some "pw") [] refCompare).2 = []) :=
  ⟨(C2_validation_400_no_store_access (some "alice") (some "a@x.com") none
      [] 0 refHash refCompare).1 (Or.inr (Or.inr (Or.inr (Or.inr (Or.inl rfl))))),
   (C2_validation_400_no_store_access (some "alice") (some "") (some "pw")
      [] 0 refHash refCompare).2 (Or.inr (Or.inl rfl))⟩

/-- C4: on a login request passing validation, the no-matching-row case and
the password-mismatch case both produce status 401 with the same body
`invalidCredentialBody`; the two failure causes are indistinguishable to the
caller. -/
theorem C4_login_401_indistinguishable
    (email password : Option String) (db : DB) (bcompare : String → String → Bool)
    (he : jsTrimFalsy email = false) (hp : jsFalsy password = false) :
    (lookupByEmail db (jsToLower (jsTrim (email.getD ""))) = none →
      (login email password db bcompare).1.status = 401 ∧
      (login email password db bcompare).1.body = invalidCredentialBody) ∧
    (∀ u, lookupByEmail db (jsToLower (jsTrim (email.getD ""))) = some u →
      bcompare (password.getD "") u.password = false →
      (login email password db bcompare).1.status = 401 ∧
      (login email password db bcompare).1.body = invalidCredentialBody) := by
  constructor
  · intro h
    simp [login, he, hp, h]
  · intro u h hbc
    simp [login, he, hp, h, hbc]

/-- C4 (witness): the unregistered-email case on an empty store, and the
wrong-password case on a store holding the user, both answer 401 with
`invalidCredentialBody`. -/
theorem C4_witness :
    ((login (some "u@x.com") (some "pw") [] refCompare).1.status = 401 ∧
      (login (some "u@x.com") (some "pw") [] refCompare).1.body =
        invalidCredentialBody) ∧
    ((login (some "u@x.com") (some "wrong")
        [⟨1, "u", "u@x.com", refHash "pw" saltRounds, 0⟩] refCompare).1.status = 401 ∧
      (login (some "u@x.com") (some "wrong")
        [⟨1, "u", "u@x.com", refHash "pw" saltRounds, 0⟩] refCompare).1.body =
        invalidCredentialBody) :=
  ⟨(C4_login_401_indistinguishable (some "u@x.com") (some "pw") [] refCompare
      (by decide) (by decide)).1 (by decide),
   (C4_login_401_indistinguishable (some "u@x.com") (some "wrong")
      [⟨1, "u", "u@x.com", refHash "pw" saltRounds, 0⟩] refCompare
      (by decide) (by decide)).2
      ⟨1, "u", "u@x.com", refHash "pw" saltRounds, 0⟩ (by decide) (by decide)⟩

/-- C8: the password-hashing work factor is the constant 12, inside the
10–12 range, and every signup — whatever the request, store states, or
hashing primitive — invokes the hash with cost 12: replacing the primitive
by one that ignores the supplied cost and always uses 12 changes nothing. -/
theorem C8_salt_rounds_constant_12 :
    saltRounds = 12 ∧ 10 ≤ saltRounds ∧ saltRounds ≤ 12 ∧
    ∀ (name email password : Option String) (dbAtCheck dbAtInsert : DB)
      (now : Nat) (bhash : String → Nat → String),
      signupWithRace name email password dbAtCheck dbAtInsert now bhash =
        signupWithRace name email password dbAtCheck dbAtInsert now
          (fun s _ => bhash s 12) :=
  ⟨rfl, by decide, by decide, fun _ _ _ _ _ _ _ => rfl⟩

/-- C3: every store operation issued by the signup and login handlers
carries the caller's email trimmed and lowercased, any row signup adds to
the store carries the normalized email, and the spec scenario holds:
signing up with "A@x.com" stores "a@x.com", and logging in with "a@x.com"
succeeds (200) with username "alice". -/
theorem C3_email_normalized
    (name email password : Option String) (db : DB) (now : Nat)
    (bhash : String → Nat → String) (bcompare : String → String → Bool) :
    (∀ op ∈ (signup name email password db now bhash).2.2,
      op.emailArg = jsToLower (jsTrim (email.getD ""))) ∧
    (∀ r ∈ (signup name email password db now bhash).2.1, r ∉ db →
      r.email = jsToLower (jsTrim (email.getD ""))) ∧
    (∀ op ∈ (login email password db bcompare).2,
      op.emailArg = jsToLower (jsTrim (email.getD ""))) ∧
    ((signup (some "alice") (some "A@x.com") (some "p1") [] 5 refHash).2.1 =
      [⟨1, "alice", "a@x.com", refHash "p1" saltRounds, 5⟩] ∧
      (login (some "a@x.com") (some "p1")
        (signup (some "alice") (some "A@x.com") (some "p1") [] 5 refHash).2.1
        refCompare).1.status = 200 ∧
      (login (some "a@x.com") (some "p1")
        (signup (some "alice") (some "A@x.com") (some "p1") [] 5 refHash).2.1
        refCompare).1.body =
        loginSuccessBody ⟨1, "alice", "a@x.com", refHash "p1" saltRounds, 5⟩) := by
  refine ⟨?_, ?_, ?_, by decide, by decide, rfl⟩
  · intro op hop
    by_cases hv : (jsTrimFalsy name || jsTrimFalsy email || jsFalsy password) = true
    · simp [signup, signupWithRace, hv] at hop
    · by_cases hlk : 0 < (lookupByEmailOrUsername db
          (jsToLower (jsTrim (email.getD ""))) (name.getD "")).length
      · simp [signup, signupWithRace, hv, hlk] at hop
        subst hop; rfl
      · simp [signup, signupWithRace, hv, hlk] at hop
        rcases hop with rfl | rfl <;> rfl
  · intro r hr hnotin
    by_cases hv : (jsTrimFalsy name || jsTrimFalsy email || jsFalsy password) = true
    · simp [signup, signupWithRace, hv] at hr
      exact absurd hr hnotin
    · by_cases hlk : 0 < (lookupByEmailOrUsername db
          (jsToLower (jsTrim (email.getD ""))) (name.getD "")).length
      · simp [signup, signupWithRace, hv, hlk] at hr
        exact absurd hr hnotin
      · simp [signup, signupWithRace, hv, hlk, List.mem_append] at hr
        rcases hr with hr | rfl
        · exact absurd hr hnotin
        · rfl
  · intro op hop
    by_cases hv : (jsTrimFalsy email || jsFalsy password) = true
    · simp [login, hv] at hop
    · cases hfind : lookupByEmail db (jsToLower (jsTrim (email.getD ""))) with
      | none =>
        simp [login, hv, hfind] at hop
        subst hop; rfl
      | some u =>
        by_cases hbc : bcompare (password.getD "") u.password = true
        · simp [login, hv, hfind, hbc] at hop
          subst hop; rfl
        · simp [login, hv, hfind, hbc] at hop
          subst hop; rfl

/-- C3 (witness): instantiating the normalization statements on the
concrete scenario discharges their membership hypotheses. -/
theorem C3_witness :
    (StoreOp.lookupEU "a@x.com" "alice").emailArg =
      jsToLower (jsTrim ((some " A@X.com ").getD "")) ∧
    (StoreOp.lookupE "a@x.com").emailArg =
      jsToLower (jsTrim ((some " A@X.com ").getD "")) :=
  ⟨(C3_email_normalized (some "alice") (some " A@X.com ") (some "p1") [] 5
      refHash refCompare).1 (StoreOp.lookupEU "a@x.com" "alice") (by decide),
   (C3_email_normalized (some "alice") (some " A@X.com ") (some "p1") [] 5
      refHash refCompare).2.2.1 (StoreOp.lookupE "a@x.com") (by decide)⟩

/-- C5: a 201 signup response body is exactly `{message, userId}` — its only
string value is the fixed message, and no `password` key occurs — and a 200
login response body is exactly `{message, user: {id, username, email,
created_at}}` — its string values are the fixed message, the username and
the email, no `password` key occurs, and in particular the stored hash is
not among the string values whenever it differs from those three. -/
theorem C5_no_password_in_responses
    (name email password : Option String) (db : DB) (now : Nat)
    (bhash : String → Nat → String) (bcompare : String → String → Bool) :
    ((signup name email password db now bhash).1.status = 201 →
      (signup name email password db now bhash).1.body =
        signupSuccessBody (db.length + 1) ∧
      Json.strLeaves (signup name email password db now bhash).1.body =
        ["User registered successfully"] ∧
      "password" ∉ Json.keys (signup name email password db now bhash).1.body) ∧
    ((login email password db bcompare).1.status = 200 →
      ∃ u, lookupByEmail db (jsToLower (jsTrim (email.getD ""))) = some u ∧
        (login email password db bcompare).1.body = loginSuccessBody u ∧
        Json.strLeaves (login email password db bcompare).1.body =
          ["Login successful", u.username, u.email] ∧
        "password" ∉ Json.keys (login email password db bcompare).1.body ∧
        (u.password ∉ (["Login successful", u.username, u.email] : List String) →
          u.password ∉
            Json.strLeaves (login email password db bcompare).1.body)) := by
  constructor
  · intro h201
    by_cases hv : (jsTrimFalsy name || jsTrimFalsy email || jsFalsy password) = true
    · simp [signup, signupWithRace, hv] at h201
    · by_cases hlk : 0 < (lookupByEmailOrUsername db
          (jsToLower (jsTrim (email.getD ""))) (name.getD "")).length
      · simp [signup, signupWithRace, hv, hlk] at h201
      · refine ⟨?_, ?_, ?_⟩ <;>
          simp [signup, signupWithRace, hv, hlk, insertedRow, signupSuccessBody,
            Json.strLeaves, JsonFields.strLeaves, Json.keys, JsonFields.keys]
  · intro h200
    by_cases hv : (jsTrimFalsy email || jsFalsy password) = true
    · simp [login, hv] at h200
    · cases hfind : lookupByEmail db (jsToLower (jsTrim (email.getD ""))) with
      | none => simp [login, hv, hfind] at h200
      | some u =>
        by_cases hbc : bcompare (password.getD "") u.password = true
        · refine ⟨u, rfl, ?_, ?_, ?_, ?_⟩ <;>
            simp [login, hv, hfind, hbc, loginSuccessBody,
              Json.strLeaves, JsonFields.strLeaves, Json.keys, JsonFields.keys]
        · simp [login, hv, hfind, hbc] at h200

/-- C5 (witness): a concrete 201 signup and a concrete 200 login exhibit the
characterized bodies. -/
theorem C5_witness :
    ((signup (some "alice") (some "a@x.com") (some "p1") [] 5 refHash).1.body =
      signupSuccessBody 1 ∧
      Json.strLeaves
        (signup (some "alice") (some "a@x.com") (some "p1") [] 5 refHash).1.body =
        ["User registered successfully"] ∧
      "password" ∉ Json.keys
        (signup (some "alice") (some "a@x.com") (some "p1") [] 5 refHash).1.body) ∧
    (∃ u, lookupByEmail [⟨1, "u", "u@x.com", refHash "pw" saltRounds, 0⟩]
        (jsToLower (jsTrim ((some "u@x.com").getD ""))) = some u ∧
      (login (some "u@x.com") (some "pw")
        [⟨1, "u", "u@x.com", refHash "pw" saltRounds, 0⟩] refCompare).1.body =
        loginSuccessBody u ∧
      Json.strLeaves (login (some "u@x.com") (some "pw")
        [⟨1, "u", "u@x.com", refHash "pw" saltRounds, 0⟩] refCompare).1.body =
        ["Login successful", u.username, u.email] ∧
      "password" ∉ Json.keys (login (some "u@x.com") (some "pw")
        [⟨1, "u", "u@x.com", refHash "pw" saltRounds, 0⟩] refCompare).1.body ∧
      (u.password ∉ (["Login successful", u.username, u.email] : List String) →
        u.password ∉ Json.strLeaves (login (some "u@x.com") (some "pw")
          [⟨1, "u", "u@x.com", refHash "pw" saltRounds, 0⟩] refCompare).1.body)) :=
  ⟨(C5_no_password_in_responses (some "alice") (some "a@x.com") (some "p1")
      [] 5 refHash refCompare).1 (by decide),
   (C5_no_password_in_responses (some "u@x.com") (some "u@x.com") (some "pw")
      [⟨1, "u", "u@x.com", refHash "pw" saltRounds, 0⟩] 0 refHash refCompare).2
      (by decide)⟩

/-- C6: for a valid `(name, email, password)` whose normalized email and
verbatim username occur in no existing row, signup answers 201, and a
subsequent login with the same email and plaintext password — against the
store signup produced, with a verifier that accepts the hash the signup
stored — answers 200. -/
theorem C6_signup_then_login
    (name email password : Option String) (db : DB) (now : Nat)
    (bhash : String → Nat → String) (bcompare : String → String → Bool)
    (hn : jsTrimFalsy name = false) (he : jsTrimFalsy email = false)
    (hp : jsFalsy password = false)
    (hfresh : ∀ r ∈ db, r.email ≠ jsToLower (jsTrim (email.getD "")) ∧
      r.username ≠ name.getD "")
    (hbc : bcompare (password.getD "")
      (bhash (password.getD "") saltRounds) = true) :
    (signup name email password db now bhash).1.status = 201 ∧
    (login email password (signup name email password db now bhash).2.1
      bcompare).1.status = 200 := by
  have hlk : lookupByEmailOrUsername db
      (jsToLower (jsTrim (email.getD ""))) (name.getD "") = [] := by
    rw [lookupByEmailOrUsername, List.filter_eq_nil_iff]
    intro r hr
    obtain ⟨h1, h2⟩ := hfresh r hr
    simp [h1, h2]
  have hdb : (signup name email password db now bhash).2.1 =
      db ++ [insertedRow db (name.getD "") (jsToLower (jsTrim (email.getD "")))
        (bhash (password.getD "") saltRounds) now] := by
    simp [signup, signupWithRace, hn, he, hp, hlk]
  have hst : (signup name email password db now bhash).1.status = 201 := by
    simp [signup, signupWithRace, hn, he, hp, hlk]
  refine ⟨hst, ?_⟩
  rw [hdb]
  have hnone : db.find? (fun r => r.email == jsToLower (jsTrim (email.getD ""))) =
      none := by
    rw [List.find?_eq_none]
    intro r hr
    simp [(hfresh r hr).1]
  have hfind : lookupByEmail
      (db ++ [insertedRow db (name.getD "") (jsToLower (jsTrim (email.getD "")))
        (bhash (password.getD "") saltRounds) now])
      (jsToLower (jsTrim (email.getD ""))) =
      some (insertedRow db (name.getD "") (jsToLower (jsTrim (email.getD "")))
        (bhash (password.getD "") saltRounds) now) := by
    rw [lookupByEmail, List.find?_append, hnone]
    simp [insertedRow]
  simp only [insertedRow] at hfind
  simp [login, he, hp, hfind, insertedRow, hbc]

/-- C6 (witness): on an empty store the concrete signup answers 201 and the
subsequent login answers 200. -/
theorem C6_witness :
    (signup (some "alice") (some "A@x.com") (some "p1") [] 5 refHash).1.status =
      201 ∧
    (login (some "A@x.com") (some "p1")
      (signup (some "alice") (some "A@x.com") (some "p1") [] 5 refHash).2.1
      refCompare).1.status = 200 :=
  C6_signup_then_login (some "alice") (some "A@x.com") (some "p1") [] 5
    refHash refCompare (by decide) (by decide) (by decide) (by simp) (by decide)

/-- C7: a signup request passing field validation whose normalized email
already belongs to a stored row is answered 409, the store is returned
unchanged, and the only store operation issued is the existence lookup — no
insert happens. -/
theorem C7_duplicate_email_409_frame
    (name email password : Option String) (db : DB) (now : Nat)
    (bhash : String → Nat → String)
    (hn : jsTrimFalsy name = false) (he : jsTrimFalsy email = false)
    (hp : jsFalsy password = false)
    (hdup : ∃ r ∈ db, r.email = jsToLower (jsTrim (email.getD ""))) :
    (signup name email password db now bhash).1.status = 409 ∧
    (signup name email password db now bhash).2.1 = db ∧
    (signup name email password db now bhash).2.2 =
      [StoreOp.lookupEU (jsToLower (jsTrim (email.getD ""))) (name.getD "")] := by
  obtain ⟨r, hr, hre⟩ := hdup
  have hmem : r ∈ lookupByEmailOrUsername db
      (jsToLower (jsTrim (email.getD ""))) (name.getD "") :=
    List.mem_filter.mpr ⟨hr, by simp [hre]⟩
  have hlen : 0 < (lookupByEmailOrUsername db
      (jsToLower (jsTrim (email.getD ""))) (name.getD "")).length :=
    List.length_pos.mpr (List.ne_nil_of_mem hmem)
  refine ⟨?_, ?_, ?_⟩ <;> simp [signup, signupWithRace, hn, he, hp, hlen]

/-- C7 (witness): signing up with the email of a stored row (up to case)
answers 409 and leaves the store as it was, having issued only the lookup. -/
theorem C7_witness :
    (signup (some "bob") (some "U@x.com") (some "pw")
      [⟨1, "u", "u@x.com", "h0", 0⟩] 3 refHash).1.status = 409 ∧
    (signup (some "bob") (some "U@x.com") (some "pw")
      [⟨1, "u", "u@x.com", "h0", 0⟩] 3 refHash).2.1 =
      [⟨1, "u", "u@x.com", "h0", 0⟩] ∧
    (signup (some "bob") (some "U@x.com") (some "pw")
      [⟨1, "u", "u@x.com", "h0", 0⟩] 3 refHash).2.2 =
      [StoreOp.lookupEU (jsToLower (jsTrim ((some "U@x.com").getD ""))) "bob"] :=
  C7_duplicate_email_409_frame (some "bob") (some "U@x.com") (some "pw")
    [⟨1, "u", "u@x.com", "h0", 0⟩] 3 refHash (by decide) (by decide) (by decide)
    ⟨⟨1, "u", "u@x.com", "h0", 0⟩, by simp, by decide⟩

/-- C9: validation is asymmetric — a whitespace-only password such as `" "`
passes validation in both handlers (only falsiness is checked, so the
request proceeds to the store and is not answered 400), whereas a
whitespace-only name or email is trimmed before the check and rejected 400
with no store operation. -/
theorem C9_whitespace_validation_asymmetry
    (name email password : Option String) (db : DB) (now : Nat)
    (bhash : String → Nat → String) (bcompare : String → String → Bool) :
    (jsTrimFalsy name = false → jsTrimFalsy email = false →
      (signup name email (some " ") db now bhash).1.status ≠ 400 ∧
      (signup name email (some " ") db now bhash).2.2 ≠ []) ∧
    ((signup (some " ") email password db now bhash).1.status = 400 ∧
      (signup (some " ") email password db now bhash).2.2 = []) ∧
    ((signup name (some " ") password db now bhash).1.status = 400 ∧
      (signup name (some " ") password db now bhash).2.2 = []) ∧
    (jsTrimFalsy email = false →
      (login email (some " ") db bcompare).1.status ≠ 400 ∧
      (login email (some " ") db bcompare).2 ≠ []) ∧
    ((login (some " ") password db bcompare).1.status = 400 ∧
      (login (some " ") password db bcompare).2 = []) := by
  have hws : jsTrimFalsy (some " ") = true := by decide
  have hwp : jsFalsy (some " ") = false := by decide
  refine ⟨?_, ?_, ?_, ?_, ?_⟩
  · intro hn he
    by_cases hlk : 0 < (lookupByEmailOrUsername db
        (jsToLower (jsTrim (email.getD ""))) (name.getD "")).length <;>
      constructor <;> simp [signup, signupWithRace, hn, he, hwp, hlk]
  · constructor <;> simp [signup, signupWithRace, hws]
  · constructor <;> simp [signup, signupWithRace, hws]
  · intro he
    cases hfind : lookupByEmail db (jsToLower (jsTrim (email.getD ""))) with
    | none => constructor <;> simp [login, he, hwp, hfind]
    | some u =>
      by_cases hbc : bcompare " " u.password = true <;>
        constructor <;> simp [login, he, hwp, hfind, hbc]
  · constructor <;> simp [login, hws]

/-- C9 (witness): concrete requests with a whitespace-only password pass
validation while whitespace-only name or email requests are answered 400
with no store access. -/
theorem C9_witness :
    ((signup (some "bob") (some "b@x.com") (some " ") [] 0 refHash).1.status ≠ 400 ∧
      (signup (some "bob") (some "b@x.com") (some " ") [] 0 refHash).2.2 ≠ []) ∧
    ((signup (some " ") (some "b@x.com") (some "pw") [] 0 refHash).1.status = 400 ∧
      (signup (some " ") (some "b@x.com") (some "pw") [] 0 refHash).2.2 = []) ∧
    ((login (some "b@x.com") (some " ") [] refCompare).1.status ≠ 400 ∧
      (login (some "b@x.com") (some " ") [] refCompare).2 ≠ []) := by
  have h := C9_whitespace_validation_asymmetry (some "bob") (some "b@x.com")
    (some "pw") [] 0 refHash refCompare
  exact ⟨h.1 (by decide) (by decide), h.2.1, h.2.2.2.1 (by decide)⟩

/-- C10: both the signup uniqueness lookup and the inserted row use the
caller-supplied name verbatim (every username a signup store operation
carries, and the username of any row signup adds, equal the raw `name`
field), and usernames differing only in case or surrounding whitespace are
distinct: with "Alice" stored, signing up as "alice" under a fresh email
succeeds (201) while signing up as "Alice" is refused (409), and a name
" Alice " is stored untrimmed. -/
theorem C10_username_verbatim
    (name email password : Option String) (db : DB) (now : Nat)
    (bhash : String → Nat → String) :
    (∀ op ∈ (signup name email password db now bhash).2.2, ∀ u,
      op.usernameArg = some u → u = name.getD "") ∧
    (∀ r ∈ (signup name email password db now bhash).2.1, r ∉ db →
      r.username = name.getD "") ∧
    ((signup (some "alice") (some "new@x.com") (some "p")
        [⟨1, "Alice", "a@x.com", "h", 0⟩] 1 refHash).1.status = 201 ∧
      (signup (some "Alice") (some "other@x.com") (some "p")
        [⟨1, "Alice", "a@x.com", "h", 0⟩] 1 refHash).1.status = 409 ∧
      (signup (some " Alice ") (some "b@x.com") (some "p") [] 2 refHash).2.1 =
        [⟨1, " Alice ", "b@x.com", refHash "p" saltRounds, 2⟩]) := by
  refine ⟨?_, ?_, by decide, by decide, by decide⟩
  · intro op hop u hu
    by_cases hv : (jsTrimFalsy name || jsTrimFalsy email || jsFalsy password) = true
    · simp [signup, signupWithRace, hv] at hop
    · by_cases hlk : 0 < (lookupByEmailOrUsername db
          (jsToLower (jsTrim (email.getD ""))) (name.getD "")).length
      · simp [signup, signupWithRace, hv, hlk] at hop
        subst hop
        simpa [StoreOp.usernameArg] using hu.symm
      · simp [signup, signupWithRace, hv, hlk] at hop
        rcases hop with rfl | rfl <;>
          simpa [StoreOp.usernameArg] using hu.symm
  · intro r hr hnotin
    by_cases hv : (jsTrimFalsy name || jsTrimFalsy email || jsFalsy password) = true
    · simp [signup, signupWithRace, hv] at hr
      exact absurd hr hnotin
    · by_cases hlk : 0 < (lookupByEmailOrUsername db
          (jsToLower (jsTrim (email.getD ""))) (name.getD "")).length
      · simp [signup, signupWithRace, hv, hlk] at hr
        exact absurd hr hnotin
      · simp [signup, signupWithRace, hv, hlk, List.mem_append] at hr
        rcases hr with hr | rfl
        · exact absurd hr hnotin
        · rfl

/-- C10 (witness): instantiating the verbatim-username statements on a
concrete trace and store. -/
theorem C10_witness :
    " Alice " = (some " Alice " : Option String).getD "" ∧
    (insertedRow [] " Alice " "b@x.com" (refHash "p" saltRounds) 2).username =
      (some " Alice " : Option String).getD "" :=
  ⟨(C10_username_verbatim (some " Alice ") (some "b@x.com") (some "p") [] 2
      refHash).1 (StoreOp.lookupEU "b@x.com" " Alice ") (by decide)
      " Alice " rfl,
   (C10_username_verbatim (some " Alice ") (some "b@x.com") (some "p") [] 2
      refHash).2.1 (insertedRow [] " Alice " "b@x.com" (refHash "p" saltRounds) 2)
      (by decide) (by simp)⟩
